import Mathlib

/-! ## Verification of the Interview-Screener evaluation core

A shallow embedding, in Lean 4, of the evaluation orchestration engine of the
Interview-Screener repository: the four-stage evaluation pipeline
(`app/agents/*.py`, `app/agents/nodes.py`, `app/core/graph.py`), the caching
evaluation service (`app/services/evaluation.py`), the batch ranking service
(`app/services/ranking.py`), and the pydantic request/response models that
validate their inputs and outputs (`app/schemas/request.py`,
`app/schemas/response.py`).

Modelling conventions:
* Python `str` values are modelled as `List Char` (`Text`); `len` is
  `List.length`, slicing `s[:n]` is `List.take n`, concatenation is `++`.
  String literals from the source are written as `"...".data`.
* Python `None` is `Option.none`.  Every key of the LangGraph `AgentState`
  dict is initialised by `EvaluationService.evaluate` (evaluation.py lines
  139-154), so inside a pipeline run every key is *present* (possibly bound
  to `None`); the state is therefore a structure of `Option` fields, and
  `dict.get(k, default)` on such a state returns the stored value - the
  default fires only for an absent key, which does not occur.
* The external judging capability (Groq LLM call + JSON parse + pydantic
  validation of the parsed object, i.e. the body of each agent's `try`
  block) is modelled as an oracle value of type `Except Text α`: `.ok` is a
  successfully parsed and validated structured output, `.error e` is any
  exception raised by the call, the parse, or the output validation.
  A further `Option Text` per node models a defensive, unexpected exception
  inside the node wrapper itself (`nodes.py` catches these separately).
* The MD5 digest used by `EvaluationService._generate_cache_key`
  (`hashlib.md5(content.encode()).hexdigest()`) is implemented concretely
  (RFC 1321) over the UTF-8 encoding of the content, so cache keys are
  executable values.
* Redis is modelled as an association list of key/value pairs plus, per
  call, availability and failure flags (`CacheBehavior`); a stored value is
  either a well-formed JSON object with the three expected fields or
  malformed text.
-/

/-- Python `str`, as a list of Unicode characters. -/
abbrev Text := List Char

/-! ## MD5 (RFC 1321), over bytes represented as `Nat` values < 256 -/

/-- The constant `2 ^ 32`, the modulus for 32-bit arithmetic. -/
def M32 : Nat := 4294967296

/-- 32-bit addition. -/
def add32 (a b : Nat) : Nat := (a + b) % M32

/-- 32-bit left rotation (the operand is assumed `< 2 ^ 32`). -/
def rotl32 (x s : Nat) : Nat := ((x <<< s) % M32) ||| (x >>> (32 - s))

/-- 32-bit bitwise complement. -/
def not32 (x : Nat) : Nat := (M32 - 1) - x

/-- The 64 MD5 sine-derived constants `T[1..64]` of RFC 1321. -/
def md5K : List Nat :=
  [0xd76aa478, 0xe8c7b756, 0x242070db, 0xc1bdceee,
   0xf57c0faf, 0x4787c62a, 0xa8304613, 0xfd469501,
   0x698098d8, 0x8b44f7af, 0xffff5bb1, 0x895cd7be,
   0x6b901122, 0xfd987193, 0xa679438e, 0x49b40821,
   0xf61e2562, 0xc040b340, 0x265e5a51, 0xe9b6c7aa,
   0xd62f105d, 0x02441453, 0xd8a1e681, 0xe7d3fbc8,
   0x21e1cde6, 0xc33707d6, 0xf4d50d87, 0x455a14ed,
   0xa9e3e905, 0xfcefa3f8, 0x676f02d9, 0x8d2a4c8a,
   0xfffa3942, 0x8771f681, 0x6d9d6122, 0xfde5380c,
   0xa4beea44, 0x4bdecfa9, 0xf6bb4b60, 0xbebfbc70,
   0x289b7ec6, 0xeaa127fa, 0xd4ef3085, 0x04881d05,
   0xd9d4d039, 0xe6db99e5, 0x1fa27cf8, 0xc4ac5665,
   0xf4292244, 0x432aff97, 0xab9423a7, 0xfc93a039,
   0x655b59c3, 0x8f0ccc92, 0xffeff47d, 0x85845dd1,
   0x6fa87e4f, 0xfe2ce6e0, 0xa3014314, 0x4e0811a1,
   0xf7537e82, 0xbd3af235, 0x2ad7d2bb, 0xeb86d391]

/-- The per-round shift amounts of RFC 1321. -/
def md5S : List Nat :=
  [7, 12, 17, 22, 7, 12, 17, 22, 7, 12, 17, 22, 7, 12, 17, 22,
   5, 9, 14, 20, 5, 9, 14, 20, 5, 9, 14, 20, 5, 9, 14, 20,
   4, 11, 16, 23, 4, 11, 16, 23, 4, 11, 16, 23, 4, 11, 16, 23,
   6, 10, 15, 21, 6, 10, 15, 21, 6, 10, 15, 21, 6, 10, 15, 21]

/-- The running 128-bit MD5 state as four 32-bit words. -/
structure MD5State where
  a : Nat
  b : Nat
  c : Nat
  d : Nat

/-- Read the little-endian 32-bit word number `g` of a 64-byte block. -/
def md5Word (block : List Nat) (g : Nat) : Nat :=
  block.getD (4 * g) 0 + 256 * block.getD (4 * g + 1) 0 +
    65536 * block.getD (4 * g + 2) 0 + 16777216 * block.getD (4 * g + 3) 0

/-- One of the 64 MD5 rounds on a block. -/
def md5Round (block : List Nat) (st : MD5State) (i : Nat) : MD5State :=
  let fg : Nat × Nat :=
    if i < 16 then ((st.b &&& st.c) ||| (not32 st.b &&& st.d), i)
    else if i < 32 then ((st.d &&& st.b) ||| (not32 st.d &&& st.c), (5 * i + 1) % 16)
    else if i < 48 then (st.b ^^^ st.c ^^^ st.d, (3 * i + 5) % 16)
    else (st.c ^^^ (st.b ||| not32 st.d), (7 * i) % 16)
  let tmp := add32 (add32 (add32 st.a fg.1) (md5K.getD i 0)) (md5Word block fg.2)
  ⟨st.d, add32 st.b (rotl32 tmp (md5S.getD i 0)), st.b, st.c⟩

/-- Process one 64-byte block. -/
def md5Block (st : MD5State) (block : List Nat) : MD5State :=
  let r := (List.range 64).foldl (md5Round block) st
  ⟨add32 st.a r.a, add32 st.b r.b, add32 st.c r.c, add32 st.d r.d⟩

/-- MD5 padding: append `0x80`, zero bytes up to 56 mod 64, then the
original bit length as a little-endian 64-bit quantity. -/
def md5Pad (msg : List Nat) : List Nat :=
  let z := (119 - msg.length % 64) % 64
  msg ++ [0x80] ++ List.replicate z 0 ++
    (List.range 8).map (fun i => ((8 * msg.length) >>> (8 * i)) % 256)

/-- Split a byte list into 64-byte chunks (structural recursion on a fuel
bound so that the kernel can evaluate it; `l.length` steps always suffice
since every step consumes 64 bytes). -/
def md5ChunksAux : Nat → List Nat → List (List Nat)
  | 0, _ => []
  | _, [] => []
  | fuel + 1, l => l.take 64 :: md5ChunksAux fuel (l.drop 64)

/-- Split a byte list into 64-byte chunks. -/
def md5Chunks (l : List Nat) : List (List Nat) := md5ChunksAux l.length l

/-- A 32-bit word as four little-endian bytes. -/
def wordLE (x : Nat) : List Nat :=
  [x % 256, (x >>> 8) % 256, (x >>> 16) % 256, (x >>> 24) % 256]

/-- The 16-byte MD5 digest of a byte message. -/
def md5Bytes (msg : List Nat) : List Nat :=
  let st := (md5Chunks (md5Pad msg)).foldl md5Block
    ⟨0x67452301, 0xefcdab89, 0x98badcfe, 0x10325476⟩
  wordLE st.a ++ wordLE st.b ++ wordLE st.c ++ wordLE st.d

/-- Lower-case hexadecimal digit. -/
def hexDigit (n : Nat) : Char :=
  if n < 10 then Char.ofNat (48 + n) else Char.ofNat (87 + n)

/-- A byte as two lower-case hex characters. -/
def hexByte (b : Nat) : Text := [hexDigit (b / 16), hexDigit (b % 16)]

/-- UTF-8 encoding of one character (what Python's `str.encode()` does per
code point). -/
def utf8Char (c : Char) : List Nat :=
  let n := c.toNat
  if n < 0x80 then [n]
  else if n < 0x800 then
    [0xc0 ||| (n >>> 6), 0x80 ||| (n &&& 0x3f)]
  else if n < 0x10000 then
    [0xe0 ||| (n >>> 12), 0x80 ||| ((n >>> 6) &&& 0x3f), 0x80 ||| (n &&& 0x3f)]
  else
    [0xf0 ||| (n >>> 18), 0x80 ||| ((n >>> 12) &&& 0x3f),
     0x80 ||| ((n >>> 6) &&& 0x3f), 0x80 ||| (n &&& 0x3f)]

/-- Python's `hashlib.md5(text.encode()).hexdigest()`: the lower-case 32-character
hex digest of the UTF-8 encoding of `text`. -/
def md5Hexdigest (text : Text) : Text :=
  ((md5Bytes ((text.map utf8Char).flatten)).map hexByte).flatten


/-! ## Agent structured outputs (`app/agents/{evaluator,analyzer,improvement}.py`)

Each agent's pydantic output model, and the synchronous agent entry point
used by the LangGraph nodes.  The body of each agent's `try` block (LLM
call, `JsonOutputParser.parse`, pydantic construction of the output model)
is an external interaction, modelled as an oracle value `call : Except Text α`:
`.ok o` is a successfully parsed and validated output, `.error e` is any
exception raised inside the `try` block, carrying the text `str(e)`.
Since `EvaluatorOutput` validates `1 <= score <= 5` (`Field(ge=1, le=5)`),
a successful `.ok` for the evaluator carries a score the Python code could
only have accepted if it was in range; `evaluate_answer_sync` re-checks the
range so that out-of-range oracle values take the same fallback branch the
pydantic `ValidationError` would take in Python. -/

/-- Model of `EvaluatorOutput` (evaluator.py): `score` is an `int` and `justification`
a string; pydantic enforces `1 <= score <= 5` at construction. -/
structure EvaluatorOutput where
  score : Int
  justification : Text
deriving DecidableEq

/-- Model of `AnalyzerOutput` (analyzer.py). -/
structure AnalyzerOutput where
  strengths : Text
  weaknesses : Text
  summary : Text
deriving DecidableEq

/-- Model of `ImprovementOutput` (improvement.py). -/
structure ImprovementOutput where
  suggestion : Text
deriving DecidableEq

/-- Model of `evaluate_answer_sync` (evaluator.py lines 99-142): returns the parsed
and validated output, or on any exception the neutral fallback
`score=3, justification="Evaluation error occurred: " + str(e)[:100]`.
An `.ok` carrying an out-of-range score corresponds to the pydantic
`ValidationError` branch in Python (same fallback; the exact pydantic
message text is abstracted to the empty suffix). -/
def evaluate_answer_sync (call : Except Text EvaluatorOutput) : EvaluatorOutput :=
  match call with
  | .ok r =>
      if 1 ≤ r.score ∧ r.score ≤ 5 then r
      else { score := 3, justification := ("Evaluation error occurred: ").data }
  | .error e =>
      { score := 3, justification := ("Evaluation error occurred: ").data ++ e.take 100 }

/-- Model of `analyze_answer_sync` (analyzer.py lines 101-149): parsed output, or the
generic fallback analysis on any exception. -/
def analyze_answer_sync (call : Except Text AnalyzerOutput) : AnalyzerOutput :=
  match call with
  | .ok r => r
  | .error _ =>
      { strengths := ("Unable to analyze strengths").data
        weaknesses := ("Unable to analyze weaknesses").data
        summary := ("Analysis unavailable due to error").data }

/-- Model of `suggest_improvement_sync` (improvement.py lines 105-156): parsed output,
or the generic fallback suggestion on any exception. -/
def suggest_improvement_sync (call : Except Text ImprovementOutput) : ImprovementOutput :=
  match call with
  | .ok r => r
  | .error _ =>
      { suggestion := ("Review the question requirements and ensure your answer addresses all key points with specific examples.").data }

/-! ## The LangGraph shared state (`app/schemas/state.py`)

`AgentState` is a `TypedDict`; `EvaluationService.evaluate` always passes an
initial dict binding *every* key (the output keys to `None`), and LangGraph
merges each node's returned partial dict into the state.  The state is
therefore modelled as a structure whose output fields are `Option` values;
`none` is Python `None`.  The `messages` key (a LangChain message log) is
carried by the source state but never read by any node's logic and is
omitted. -/

structure AgentState where
  candidate_answer : Text
  question_context : Option Text
  evaluator_score : Option Int
  evaluator_justification : Option Text
  analyzer_strengths : Option Text
  analyzer_weaknesses : Option Text
  improvement_suggestion : Option Text
  final_score : Option Int
  final_summary : Option Text
  final_improvement : Option Text
  current_agent : Option Text
  error : Option Text
  cached : Bool
deriving DecidableEq

/-- The oracle for one node: the outcome of the judging-capability call
inside the agent (`call`), plus a defensive, unexpected exception raised in
the node wrapper itself outside the agent call (`nodeExn`; `none` in every
normal run, since the `_sync` agent functions catch all their own
exceptions). -/
structure NodeOracle (α : Type) where
  call : Except Text α
  nodeExn : Option Text

/-- Model of `evaluator_node` (nodes.py lines 19-50). -/
def evaluator_node (o : NodeOracle EvaluatorOutput) (state : AgentState) : AgentState :=
  match o.nodeExn with
  | some e =>
      { state with
        evaluator_score := some 3
        evaluator_justification := some ("Evaluation error").data
        error := some e
        current_agent := some ("evaluator").data }
  | none =>
      let result := evaluate_answer_sync o.call
      { state with
        evaluator_score := some result.score
        evaluator_justification := some result.justification
        current_agent := some ("evaluator").data }

/-- Model of `analyzer_node` (nodes.py lines 53-87). -/
def analyzer_node (o : NodeOracle AnalyzerOutput) (state : AgentState) : AgentState :=
  match o.nodeExn with
  | some e =>
      { state with
        analyzer_strengths := some ("Analysis unavailable").data
        analyzer_weaknesses := some ("Analysis unavailable").data
        final_summary := some ("Unable to generate summary").data
        error := some e
        current_agent := some ("analyzer").data }
  | none =>
      let result := analyze_answer_sync o.call
      { state with
        analyzer_strengths := some result.strengths
        analyzer_weaknesses := some result.weaknesses
        final_summary := some result.summary
        current_agent := some ("analyzer").data }

/-- Model of `improvement_node` (nodes.py lines 90-123). -/
def improvement_node (o : NodeOracle ImprovementOutput) (state : AgentState) : AgentState :=
  match o.nodeExn with
  | some e =>
      { state with
        improvement_suggestion := some ("Unable to generate suggestion").data
        final_improvement := some ("Unable to generate suggestion").data
        error := some e
        current_agent := some ("improvement").data }
  | none =>
      let result := suggest_improvement_sync o.call
      { state with
        improvement_suggestion := some result.suggestion
        final_improvement := some result.suggestion
        current_agent := some ("improvement").data }

/-- Model of `synthesizer_node` (nodes.py lines 126-166).  The `try` block reads
`state.get("evaluator_score", 3)`, `state.get("final_summary", ...)` and
`state.get("final_improvement", ...)`; since every key is present in the
pipeline state, `get` returns the stored value even when it is `None`, and
the documented defaults cannot fire.  `len(final_summary)` /
`len(final_improvement)` then raise `TypeError` when the stored value is
`None`, which the node's `except` branch converts to the synthesis-error
fallback; the raised message text is irrelevant to the produced state and is
recorded as a fixed marker. -/
def synthesizer_node (state : AgentState) : AgentState :=
  match state.final_summary, state.final_improvement with
  | some final_summary, some final_improvement =>
      let final_summary :=
        if final_summary.length > 200
        then final_summary.take 197 ++ ("...").data
        else final_summary
      let final_improvement :=
        if final_improvement.length > 300
        then final_improvement.take 297 ++ ("...").data
        else final_improvement
      { state with
        final_score := state.evaluator_score
        final_summary := some final_summary
        final_improvement := some final_improvement
        current_agent := some ("synthesizer").data }
  | _, _ =>
      { state with
        final_score := some 3
        final_summary := some ("Synthesis error").data
        final_improvement := some ("Unable to provide feedback").data
        error := some ("TypeError").data
        current_agent := some ("synthesizer").data }

/-! ## The evaluation graph (`app/core/graph.py`)

`build_evaluation_graph` wires the four nodes in the fixed sequential order
evaluator -> analyzer -> improvement -> synthesizer (entry point
`evaluator`, edge from `synthesizer` to `END`). -/

/-- The oracle for one full pipeline execution: one `NodeOracle` per
judging node, plus a defensive flag for an exception escaping
`graph.invoke` itself (caught by the outer `try` of
`EvaluationService.evaluate`). -/
structure PipelineOracle where
  evaluator : NodeOracle EvaluatorOutput
  analyzer : NodeOracle AnalyzerOutput
  improvement : NodeOracle ImprovementOutput
  graphExn : Option Text

/-- Model of `graph.invoke` on a state: the four nodes applied in the fixed order of
`build_evaluation_graph`. -/
def run_graph (o : PipelineOracle) (state : AgentState) : AgentState :=
  synthesizer_node
    (improvement_node o.improvement
      (analyzer_node o.analyzer
        (evaluator_node o.evaluator state)))

/-! ## Request and response models (`app/schemas/request.py`, `app/schemas/response.py`) -/

/-- Model of `EvaluateAnswerRequest` after boundary validation: `candidate_answer`
10-5000 characters (whitespace-stripped by the field validator before it
reaches the service), `question_context` optional, at most 1000 characters. -/
structure EvaluateAnswerRequest where
  candidate_answer : Text
  question_context : Option Text
deriving DecidableEq

/-- The boundary validation of `EvaluateAnswerRequest` (pydantic
`min_length=10`, `max_length=5000` on the answer, `max_length=1000` on the
optional question): requests reaching `EvaluationService.evaluate` satisfy
this. -/
def validRequest (r : EvaluateAnswerRequest) : Bool :=
  10 ≤ r.candidate_answer.length && r.candidate_answer.length ≤ 5000 &&
    (match r.question_context with
     | none => true
     | some q => q.length ≤ 1000)

/-- Model of `EvaluationResponse` (response.py lines 9-47): the validated response
value. -/
structure EvaluationResponse where
  score : Int
  summary : Text
  improvement : Text
deriving DecidableEq

/-- Pydantic construction `EvaluationResponse(score=..., summary=...,
improvement=...)`: validates `1 <= score <= 5`, `10 <= len(summary) <= 200`
and `10 <= len(improvement) <= 300`, and fails (raises `ValidationError`,
here `none`) when a field is `None` or out of range. -/
def mkEvaluationResponse (score : Option Int) (summary improvement : Option Text) :
    Option EvaluationResponse :=
  match score, summary, improvement with
  | some sc, some su, some im =>
      if 1 ≤ sc ∧ sc ≤ 5 ∧ 10 ≤ su.length ∧ su.length ≤ 200 ∧
          10 ≤ im.length ∧ im.length ≤ 300
      then some { score := sc, summary := su, improvement := im }
      else none
  | _, _, _ => none

/-! ## `EvaluationService` (`app/services/evaluation.py`) -/

/-- A value stored in Redis under a cache key, as seen by
`_get_cached_result`: either text that `json.loads` parses into an object
carrying the three expected fields, or anything else (unparseable text,
wrong shape, or the empty string, all of which lead to a miss). -/
inductive CachedValue where
  | json (score : Int) (summary improvement : Text)
  | malformed
deriving DecidableEq

/-- The Redis store content: an association list from keys to stored
values. -/
abbrev Store := List (Text × CachedValue)

/-- Per-call behaviour of the cache infrastructure:
`available` is `self.redis_client is not None and settings.enable_caching`;
`readExn` / `writeExn` model the `GET` / `SETEX` call raising. -/
structure CacheBehavior where
  available : Bool
  readExn : Bool
  writeExn : Bool

/-- Look a key up in the store (`redis.get`). -/
def lookupStore (store : Store) (key : Text) : Option CachedValue :=
  (store.find? (fun kv => kv.1 == key)).map (fun kv => kv.2)

/-- The content string digested by `EvaluationService._generate_cache_key`:
`f"{answer}:{question or ''}"`.  (`question or ''` maps both `None`
and the empty string to `''`.) -/
def cache_key_content (answer : Text) (question : Option Text) : Text :=
  answer ++ (":").data ++ question.getD []

/-- Model of `EvaluationService._generate_cache_key` (evaluation.py lines 53-65):
`"eval:" + md5(content).hexdigest()`. -/
def _generate_cache_key (answer : Text) (question : Option Text) : Text :=
  ("eval:").data ++ md5Hexdigest (cache_key_content answer question)

/-- Model of `EvaluationService._get_cached_result` (evaluation.py lines 67-89):
`None` when the client is unavailable or caching disabled, when the `GET`
raises (caught), when the key is absent, or when the stored text fails to
parse or validate (caught); otherwise the deserialized, validated response. -/
def _get_cached_result (cb : CacheBehavior) (store : Store) (key : Text) :
    Option EvaluationResponse :=
  if !cb.available then none
  else if cb.readExn then none
  else
    match lookupStore store key with
    | none => none
    | some .malformed => none
    | some (.json sc su im) => mkEvaluationResponse (some sc) (some su) (some im)

/-- Model of `EvaluationService._cache_result` (evaluation.py lines 91-110): a
best-effort `SETEX` of the serialized response; no-op when the client is
unavailable, caching is disabled, or the write raises (caught). -/
def _cache_result (cb : CacheBehavior) (store : Store) (key : Text)
    (result : EvaluationResponse) : Store :=
  if !cb.available then store
  else if cb.writeExn then store
  else (key, CachedValue.json result.score result.summary result.improvement) ::
    store.filter (fun kv => !(kv.1 == key))

/-- The initial `AgentState` dict built by `EvaluationService.evaluate`
(evaluation.py lines 139-154): every key present, all output keys `None`. -/
def initial_state (request : EvaluateAnswerRequest) : AgentState :=
  { candidate_answer := request.candidate_answer
    question_context := request.question_context
    evaluator_score := none
    evaluator_justification := none
    analyzer_strengths := none
    analyzer_weaknesses := none
    improvement_suggestion := none
    final_score := none
    final_summary := none
    final_improvement := none
    current_agent := none
    error := none
    cached := false }

/-- The fallback response of `EvaluationService.evaluate`'s outer `except`
branch (evaluation.py lines 172-179). -/
def errorFallbackResponse : EvaluationResponse :=
  { score := 3
    summary := ("Evaluation encountered an error").data
    improvement := ("Please try again or contact support").data }

/-- What one call to `EvaluationService.evaluate` produces: the returned
response, the store left behind, and whether the workflow graph (and with it
the judging capability) was invoked at all. -/
structure EvaluateOutcome where
  response : EvaluationResponse
  store : Store
  pipelineInvoked : Bool
deriving DecidableEq

/-- Model of `EvaluationService.evaluate` (evaluation.py lines 112-179): check the
cache and return a hit directly; on a miss run the graph on the initial
state and build the validated response; on success best-effort cache it; if
the graph invocation or the response construction raises, return the
fallback response (in which case nothing is cached). -/
def evaluate (cb : CacheBehavior) (o : PipelineOracle) (store : Store)
    (request : EvaluateAnswerRequest) : EvaluateOutcome :=
  let cache_key := _generate_cache_key request.candidate_answer request.question_context
  match _get_cached_result cb store cache_key with
  | some cached_result => ⟨cached_result, store, false⟩
  | none =>
      match o.graphExn with
      | some _ => ⟨errorFallbackResponse, store, true⟩
      | none =>
          let result := run_graph o (initial_state request)
          match mkEvaluationResponse result.final_score result.final_summary
              result.final_improvement with
          | some response => ⟨response, _cache_result cb store cache_key response, true⟩
          | none => ⟨errorFallbackResponse, store, true⟩

/-- Direct pipeline execution, bypassing the cache layer entirely: what
`evaluate` does on a miss (spec section 4.2's `execute`). -/
def pipeline_execute (o : PipelineOracle) (request : EvaluateAnswerRequest) :
    EvaluationResponse :=
  match o.graphExn with
  | some _ => errorFallbackResponse
  | none =>
      let result := run_graph o (initial_state request)
      match mkEvaluationResponse result.final_score result.final_summary
          result.final_improvement with
      | some response => response
      | none => errorFallbackResponse

/-! ## `RankingService` (`app/services/ranking.py`)

`rank_candidates` fans the batch out to `_evaluate_candidate` (one
concurrent task per candidate; `asyncio.gather` collects the results in
submission order, and propagates the first exception if any task raises),
sorts the drafts by score descending (Python's `list.sort` with
`reverse=True` is a stable sort: equal keys keep their submission order),
and assigns ranks 1..N in sorted order.

Each candidate is given by its id and the outcome that
`evaluation_service.evaluate` would produce for it: `.ok response` when
`evaluate` returns (its normal behaviour), `.error e` when an exception
escapes the evaluation (the scenario `_evaluate_candidate`'s `except`
branch is written for). -/

/-- Model of `RankedCandidate` (response.py lines 50-81): pydantic validates
`1 <= score <= 5` and `rank >= 1` at construction. -/
structure RankedCandidate where
  candidate_id : Text
  score : Int
  summary : Text
  improvement : Text
  rank : Int
deriving DecidableEq

/-- Pydantic construction `RankedCandidate(...)`: `none` (a raised
`ValidationError`) when `score` is outside `[1, 5]` or `rank < 1`. -/
def mkRankedCandidate (candidate_id : Text) (score : Int) (summary improvement : Text)
    (rank : Int) : Option RankedCandidate :=
  if 1 ≤ score ∧ score ≤ 5 ∧ 1 ≤ rank
  then some { candidate_id, score, summary, improvement, rank }
  else none

/-- Model of `RankingService._evaluate_candidate` (ranking.py lines 82-117): on a
successful evaluation, build a draft `RankedCandidate` with `rank=0`; on
any exception (including a `ValidationError` from that very construction),
the `except` branch builds the neutral fallback draft - also with `rank=0`.
A `ValidationError` raised inside the `except` branch propagates to the
caller (`.none` here). -/
def _evaluate_candidate (candidate_id : Text)
    (outcome : Except Text EvaluationResponse) : Option RankedCandidate :=
  match outcome with
  | .ok result =>
      match mkRankedCandidate candidate_id result.score result.summary
          result.improvement 0 with
      | some c => some c
      | none =>
          mkRankedCandidate candidate_id 3 ("Evaluation failed").data
            ("Unable to provide feedback").data 0
  | .error _ =>
      mkRankedCandidate candidate_id 3 ("Evaluation failed").data
        ("Unable to provide feedback").data 0

/-- Stable insertion (descending by `score`): place `x` before the first
element whose score it reaches or exceeds; among equal scores the earlier
element stays first.  Together with `sortByScoreDesc` this is the
behaviour of `evaluated_candidates.sort(key=lambda x: x.score,
reverse=True)` (Timsort: stable, descending under `reverse=True`). -/
def insertDesc (x : RankedCandidate) : List RankedCandidate → List RankedCandidate
  | [] => [x]
  | y :: ys => if y.score ≤ x.score then x :: y :: ys else y :: insertDesc x ys

/-- Stable sort by score descending (ranking.py line 58). -/
def sortByScoreDesc : List RankedCandidate → List RankedCandidate
  | [] => []
  | x :: xs => insertDesc x (sortByScoreDesc xs)

/-- Rank assignment (ranking.py lines 61-73): walk the sorted list with
`current_rank` starting at 1, rebuilding each candidate with its rank. -/
def assignRanks (current_rank : Int) : List RankedCandidate → List RankedCandidate
  | [] => []
  | c :: cs => { c with rank := current_rank } :: assignRanks (current_rank + 1) cs

/-- Model of `RankingResponse` (response.py lines 84-100); pydantic validates
`total_candidates >= 1`. -/
structure RankingResponse where
  candidates : List RankedCandidate
  total_candidates : Int
deriving DecidableEq

/-- Model of `asyncio.gather`: results in task-submission order; the first raised
exception propagates instead. -/
def gatherResults : List (Option RankedCandidate) → Option (List RankedCandidate)
  | [] => some []
  | none :: _ => none
  | some c :: rest => (gatherResults rest).map (fun cs => c :: cs)

/-- Model of `RankingService.rank_candidates` (ranking.py lines 25-80): evaluate all
candidates, sort, assign ranks, and build the response.  `none` models an
exception escaping to the route handler (which maps it to a 500 error
envelope). -/
def rank_candidates (candidates : List (Text × Except Text EvaluationResponse)) :
    Option RankingResponse :=
  match gatherResults (candidates.map (fun p => _evaluate_candidate p.1 p.2)) with
  | none => none
  | some evaluated_candidates =>
      let ranked_candidates := assignRanks 1 (sortByScoreDesc evaluated_candidates)
      if 1 ≤ ranked_candidates.length
      then some { candidates := ranked_candidates,
                  total_candidates := ranked_candidates.length }
      else none

/-- The bounds pydantic guarantees for every constructed
`EvaluationResponse` value. -/
def ValidResponse (r : EvaluationResponse) : Prop :=
  1 ≤ r.score ∧ r.score ≤ 5 ∧ 10 ≤ r.summary.length ∧ r.summary.length ≤ 200 ∧
    10 ≤ r.improvement.length ∧ r.improvement.length ≤ 300

/-! ## Concrete fixtures used by witnesses and counterexamples -/

/-- The cache behaviour of a healthy store: client available, no read or
write failures. -/
def healthyCB : CacheBehavior := ⟨true, false, false⟩

/-- The cache behaviour with the store unavailable (no Redis client or
caching disabled). -/
def noCacheCB : CacheBehavior := ⟨false, false, false⟩

/-- A concrete validated request (answer of 38 characters, no question). -/
def req0 : EvaluateAnswerRequest :=
  ⟨("a hash map gives constant time lookups").data, none⟩

/-- An oracle on which the judging capability fails on every stage that
calls it. -/
def oAllFail : PipelineOracle :=
  { evaluator := ⟨.error ("connection refused").data, none⟩
    analyzer := ⟨.error ("connection refused").data, none⟩
    improvement := ⟨.error ("connection refused").data, none⟩
    graphExn := none }

/-- An oracle whose analyzer parses successfully but returns a summary of
only 5 characters, below the response model's `min_length=10`. -/
def oShortSummary : PipelineOracle :=
  { evaluator := ⟨.ok ⟨4, ("clear and correct").data⟩, none⟩
    analyzer := ⟨.ok ⟨("good").data, ("none").data, ("short").data⟩, none⟩
    improvement := ⟨.ok ⟨("mention the space complexity of the approach").data⟩, none⟩
    graphExn := none }

/-- The concrete state of the truncation test: a 250-character summary and
a 400-character improvement. -/
def truncationState : AgentState :=
  { initial_state req0 with
    final_summary := some (List.replicate 250 'a')
    final_improvement := some (List.replicate 400 'b') }

/-- A store holding an undeserializable entry under the fingerprint of
`req0`. -/
def storeMalformed : Store :=
  [(_generate_cache_key req0.candidate_answer req0.question_context, CachedValue.malformed)]

/-- Position of a `current_agent` marker in the fixed stage order
`[None, evaluator, analyzer, improvement, synthesizer]`. -/
def stage_index : Option Text → Nat
  | none => 0
  | some s =>
      if s = ("evaluator").data then 1
      else if s = ("analyzer").data then 2
      else if s = ("improvement").data then 3
      else if s = ("synthesizer").data then 4
      else 5

/-- The succession of states of one pipeline execution: the initial state
followed by the state after each of the four nodes, in the fixed order of
the graph. -/
def pipeline_trace (o : PipelineOracle) (request : EvaluateAnswerRequest) :
    List AgentState :=
  let s0 := initial_state request
  let s1 := evaluator_node o.evaluator s0
  let s2 := analyzer_node o.analyzer s1
  let s3 := improvement_node o.improvement s2
  let s4 := synthesizer_node s3
  [s0, s1, s2, s3, s4]

/-- A well-formed evaluation response with the given score, as the judging
pipeline would produce for a successfully evaluated candidate. -/
def goodResponse (score : Int) : EvaluationResponse :=
  { score := score
    summary := ("a clear, correct and complete answer").data
    improvement := ("consider discussing complexity trade-offs").data }

/-- The specification's ranking example: four candidates submitted with
scores [2, 5, 5, 1], every evaluation succeeding. -/
def rankBatch : List (Text × Except Text EvaluationResponse) :=
  [(("candidate_001").data, .ok (goodResponse 2)),
   (("candidate_002").data, .ok (goodResponse 5)),
   (("candidate_003").data, .ok (goodResponse 5)),
   (("candidate_004").data, .ok (goodResponse 1))]

/-- A batch of two candidates in which the second candidate's evaluation
raises an exception that escapes the cache layer. -/
def failBatch : List (Text × Except Text EvaluationResponse) :=
  [(("candidate_001").data, .ok (goodResponse 4)),
   (("candidate_002").data, .error (("evaluation blew up").data))]

/-! ## Helper lemmas -/

set_option maxRecDepth 100000 in
example : md5Hexdigest ("abc").data = ("900150983cd24fb0d6963f7d28e17f72").data := by decide


theorem mkEvaluationResponse_valid {sc : Option Int} {su im : Option Text}
    {r : EvaluationResponse} (h : mkEvaluationResponse sc su im = some r) :
    ValidResponse r := by
  unfold mkEvaluationResponse at h
  split at h
  · split at h
    · next hc =>
        cases h
        exact hc
    · cases h
  · cases h

theorem errorFallbackResponse_valid : ValidResponse errorFallbackResponse := by
  unfold ValidResponse errorFallbackResponse
  refine ⟨by decide, by decide, by decide, by decide, by decide, by decide⟩

theorem mkEvaluationResponse_roundtrip {r : EvaluationResponse} (h : ValidResponse r) :
    mkEvaluationResponse (some r.score) (some r.summary) (some r.improvement) = some r := by
  unfold ValidResponse at h
  simp only [mkEvaluationResponse]
  rw [if_pos h]

theorem get_cached_result_valid {cb : CacheBehavior} {store : Store} {key : Text}
    {r : EvaluationResponse} (h : _get_cached_result cb store key = some r) :
    ValidResponse r := by
  unfold _get_cached_result at h
  split at h
  · cases h
  · split at h
    · cases h
    · split at h
      · cases h
      · cases h
      · exact mkEvaluationResponse_valid h

theorem evaluate_response_valid (cb : CacheBehavior) (o : PipelineOracle) (store : Store)
    (request : EvaluateAnswerRequest) :
    ValidResponse (evaluate cb o store request).response := by
  simp only [evaluate]
  cases h : _get_cached_result cb store
      (_generate_cache_key request.candidate_answer request.question_context) with
  | some r => exact get_cached_result_valid h
  | none =>
      cases hg : o.graphExn with
      | some e => exact errorFallbackResponse_valid
      | none =>
          cases hm : mkEvaluationResponse (run_graph o (initial_state request)).final_score
              (run_graph o (initial_state request)).final_summary
              (run_graph o (initial_state request)).final_improvement with
          | some resp => simp only [hm]; exact mkEvaluationResponse_valid hm
          | none => simp only [hm]; exact errorFallbackResponse_valid

/-! ## C1 -/

/-- C1: for every valid `EvaluationInput` (answer 10-5000 chars, optional
question at most 1000 chars), the evaluation returns an `EvaluationResult`
whose score is an integer in `[1, 5]`, whose summary has length at most
200, and whose improvement has length at most 300 - for every behaviour of
the judging capability and of the cache, in particular when the judging
capability raises on every stage (witness below). -/
theorem evaluate_result_bounded (cb : CacheBehavior) (o : PipelineOracle) (store : Store)
    (request : EvaluateAnswerRequest) (h : validRequest request = true) :
    1 ≤ (evaluate cb o store request).response.score ∧
    (evaluate cb o store request).response.score ≤ 5 ∧
    (evaluate cb o store request).response.summary.length ≤ 200 ∧
    (evaluate cb o store request).response.improvement.length ≤ 300 := by
  have hv := evaluate_response_valid cb o store request
  unfold ValidResponse at hv
  exact ⟨hv.1, hv.2.1, hv.2.2.2.1, hv.2.2.2.2.2⟩

/-- Witness for C1 at a concrete valid request, with the judging capability
failing on every stage (all stages take their fallback branch). -/
theorem evaluate_result_bounded_witness :
    validRequest req0 = true ∧
    (1 ≤ (evaluate noCacheCB oAllFail [] req0).response.score ∧
     (evaluate noCacheCB oAllFail [] req0).response.score ≤ 5 ∧
     (evaluate noCacheCB oAllFail [] req0).response.summary.length ≤ 200 ∧
     (evaluate noCacheCB oAllFail [] req0).response.improvement.length ≤ 300) :=
  ⟨by decide, evaluate_result_bounded noCacheCB oAllFail [] req0 (by decide)⟩

/-! ## C10 -/

/-- C10: every `EvaluationResult` returned by `evaluate` has a summary of
length at least 10 and an improvement of length at least 10 (the response
model's `min_length=10`), and whenever the pipeline's product fails
response validation (as a too-short summary or improvement does), the
guarded block fails and the caller receives the neutral fallback response -
never a short-field result and never an exception. -/
theorem evaluate_min_field_lengths (cb : CacheBehavior) (o : PipelineOracle) (store : Store)
    (request : EvaluateAnswerRequest) :
    (10 ≤ (evaluate cb o store request).response.summary.length ∧
     10 ≤ (evaluate cb o store request).response.improvement.length) ∧
    (_get_cached_result cb store
        (_generate_cache_key request.candidate_answer request.question_context) = none →
      o.graphExn = none →
      mkEvaluationResponse (run_graph o (initial_state request)).final_score
        (run_graph o (initial_state request)).final_summary
        (run_graph o (initial_state request)).final_improvement = none →
      (evaluate cb o store request).response = errorFallbackResponse) := by
  constructor
  · have hv := evaluate_response_valid cb o store request
    unfold ValidResponse at hv
    exact ⟨hv.2.2.1, hv.2.2.2.2.1⟩
  · intro h1 h2 h3
    simp only [evaluate, h1, h2, h3]

/-- Witness for C10: with the cache unavailable and the analyzer returning
a 5-character summary, the pipeline product fails response validation and
the caller receives the neutral fallback. -/
theorem evaluate_min_field_lengths_witness :
    (10 ≤ (evaluate noCacheCB oShortSummary [] req0).response.summary.length ∧
     10 ≤ (evaluate noCacheCB oShortSummary [] req0).response.improvement.length) ∧
    (evaluate noCacheCB oShortSummary [] req0).response = errorFallbackResponse :=
  ⟨(evaluate_min_field_lengths noCacheCB oShortSummary [] req0).1,
   (evaluate_min_field_lengths noCacheCB oShortSummary [] req0).2 (by decide) (by decide)
     (by decide)⟩

/-! ## C4 -/

/-- C4: the terminal synthesizer stage truncates deterministically: a
summary longer than 200 characters becomes exactly 200 characters ending in
the ellipsis marker `...` (the first 197 characters plus `...`), an
improvement longer than 300 characters becomes exactly 300 characters
similarly truncated, and texts at or under the limit pass through
unchanged.  The witness instantiates a 250-character summary and a
400-character improvement. -/
theorem synthesizer_truncation (state : AgentState) (su im : Text)
    (h1 : state.final_summary = some su) (h2 : state.final_improvement = some im) :
    (200 < su.length →
      (synthesizer_node state).final_summary = some (su.take 197 ++ ("...").data) ∧
      (su.take 197 ++ ("...").data).length = 200 ∧
      ("...").data <:+ su.take 197 ++ ("...").data) ∧
    (su.length ≤ 200 → (synthesizer_node state).final_summary = some su) ∧
    (300 < im.length →
      (synthesizer_node state).final_improvement = some (im.take 297 ++ ("...").data) ∧
      (im.take 297 ++ ("...").data).length = 300 ∧
      ("...").data <:+ im.take 297 ++ ("...").data) ∧
    (im.length ≤ 300 → (synthesizer_node state).final_improvement = some im) := by
  have hdots : (("...").data).length = 3 := rfl
  refine ⟨fun hgt => ⟨?_, ?_, List.suffix_append _ _⟩, fun hle => ?_,
    fun hgt => ⟨?_, ?_, List.suffix_append _ _⟩, fun hle => ?_⟩
  · simp only [synthesizer_node, h1, h2]
    rw [if_pos hgt]
  · simp only [List.length_append, List.length_take, hdots]
    omega
  · simp only [synthesizer_node, h1, h2]
    rw [if_neg (by omega)]
  · simp only [synthesizer_node, h1, h2]
    rw [if_pos hgt]
  · simp only [List.length_append, List.length_take, hdots]
    omega
  · simp only [synthesizer_node, h1, h2]
    rw [if_neg (by omega)]

set_option maxRecDepth 40000 in
/-- Witness for C4: a 250-character summary yields exactly 200 characters
ending in `...`; a 400-character improvement yields exactly 300. -/
theorem synthesizer_truncation_witness :
    (200 < (List.replicate 250 'a').length ∧
      (synthesizer_node truncationState).final_summary
        = some ((List.replicate 250 'a').take 197 ++ ("...").data) ∧
      ((List.replicate 250 'a').take 197 ++ ("...").data).length = 200 ∧
      ("...").data <:+ (List.replicate 250 'a').take 197 ++ ("...").data) ∧
    (300 < (List.replicate 400 'b').length ∧
      (synthesizer_node truncationState).final_improvement
        = some ((List.replicate 400 'b').take 297 ++ ("...").data) ∧
      ((List.replicate 400 'b').take 297 ++ ("...").data).length = 300 ∧
      ("...").data <:+ (List.replicate 400 'b').take 297 ++ ("...").data) :=
  ⟨⟨by decide,
    (synthesizer_truncation truncationState (List.replicate 250 'a')
      (List.replicate 400 'b') rfl rfl).1 (by decide)⟩,
   ⟨by decide,
    (synthesizer_truncation truncationState (List.replicate 250 'a')
      (List.replicate 400 'b') rfl rfl).2.2.1 (by decide)⟩⟩

/-! ## C5 -/

/-- C5 counterexample: on the pipeline's initial state - where the score,
summary and improvement outputs are initialised but carry no stage output
(the keys are present, bound to `None`) - the synthesizer does not produce
the documented defaults.  `state.get("final_summary", "No summary
available")` returns the stored `None` (the default fires only for an
absent key), `len(None)` raises, and the `except` branch produces the
summary "Synthesis error", which differs from the claimed "no summary
available" (and from the code's own default literal "No summary
available"). -/
theorem synthesizer_defaults_counterexample :
    (synthesizer_node (initial_state req0)).final_summary = some (("Synthesis error").data) ∧
    (synthesizer_node (initial_state req0)).final_improvement
      = some (("Unable to provide feedback").data) ∧
    some (("Synthesis error").data) ≠ some (("no summary available").data) ∧
    some (("Synthesis error").data) ≠ some (("No summary available").data) ∧
    some (("Unable to provide feedback").data)
      ≠ some (("no improvement suggestion available").data) := by
  refine ⟨rfl, rfl, by decide, by decide, by decide⟩

/-- C5 amended: when the synthesizer runs on a state whose summary or
improvement output is unset - as in the pipeline's initial state, where the
fields are initialised to `None` but carry no stage output - the `dict.get`
defaults do not apply (the keys are present); instead `len(None)` raises
and the exception fallback produces score 3, summary "Synthesis error" and
improvement "Unable to provide feedback". -/
theorem synthesizer_on_unset_fields (request : EvaluateAnswerRequest) :
    (synthesizer_node (initial_state request)).final_score = some 3 ∧
    (synthesizer_node (initial_state request)).final_summary
      = some (("Synthesis error").data) ∧
    (synthesizer_node (initial_state request)).final_improvement
      = some (("Unable to provide feedback").data) :=
  ⟨rfl, rfl, rfl⟩

/-! ## C8 -/

/-- C8 counterexample: two character-level different pairs with the same
digested content string produce the identical fingerprint, because the
separator `:` is not escaped: `("aaaaaaaaaa:", None)` and
`("aaaaaaaaaa", ":")` both digest the content `"aaaaaaaaaa::"`. -/
theorem cache_key_collision :
    _generate_cache_key (("aaaaaaaaaa:").data) none
      = _generate_cache_key (("aaaaaaaaaa").data) (some ((":").data)) ∧
    ((("aaaaaaaaaa:").data, (none : Option Text))
      ≠ ((("aaaaaaaaaa").data), some ((":").data))) := by
  refine ⟨rfl, by decide⟩

set_option maxRecDepth 400000 in
/-- C8 amended: the cache fingerprint is the exact key
`"eval:" + md5-hex-digest(answer + ":" + (question or ""))` and is
deterministic; appending a space to the question always changes the
digested content string (and, evaluated on concrete inputs, the
fingerprint); but a character-level difference in the pair does *not*
always change the fingerprint: distinct pairs whose content strings
coincide (see the counterexample) collide. -/
theorem cache_key_spec (answer q : Text) (question : Option Text) :
    _generate_cache_key answer question
      = ("eval:").data ++ md5Hexdigest (cache_key_content answer question) ∧
    _generate_cache_key answer question = _generate_cache_key answer question ∧
    cache_key_content answer (some (q ++ (" ").data)) ≠ cache_key_content answer (some q) ∧
    _generate_cache_key (("aaaaaaaaaa").data) (some (("what data structure fits?").data))
      ≠ _generate_cache_key (("aaaaaaaaaa").data)
          (some (("what data structure fits? ").data)) := by
  refine ⟨rfl, rfl, ?_, by decide⟩
  intro hc
  have hlen := congrArg List.length hc
  simp [cache_key_content] at hlen

/-! ## C7 -/

theorem get_cached_result_unavailable {cb : CacheBehavior} {store : Store} {key : Text}
    (h : cb.available = false ∨ cb.readExn = true) :
    _get_cached_result cb store key = none := by
  rcases h with h | h <;> simp [_get_cached_result, h]

theorem get_cached_result_malformed {cb : CacheBehavior} {store : Store} {key : Text}
    (h : lookupStore store key = some CachedValue.malformed) :
    _get_cached_result cb store key = none := by
  simp [_get_cached_result, h]

theorem evaluate_miss_response {cb : CacheBehavior} {o : PipelineOracle} {store : Store}
    {request : EvaluateAnswerRequest}
    (h : _get_cached_result cb store
      (_generate_cache_key request.candidate_answer request.question_context) = none) :
    (evaluate cb o store request).response = pipeline_execute o request := by
  simp only [evaluate, pipeline_execute, h]
  cases hg : o.graphExn with
  | some e => rfl
  | none =>
      cases hm : mkEvaluationResponse (run_graph o (initial_state request)).final_score
          (run_graph o (initial_state request)).final_summary
          (run_graph o (initial_state request)).final_improvement with
      | some resp => simp only [hm]
      | none => simp only [hm]

theorem evaluate_writeExn_response (a r : Bool) (o : PipelineOracle) (store : Store)
    (request : EvaluateAnswerRequest) :
    (evaluate ⟨a, r, true⟩ o store request).response
      = (evaluate ⟨a, r, false⟩ o store request).response := by
  have hr : _get_cached_result ⟨a, r, true⟩ store
        (_generate_cache_key request.candidate_answer request.question_context)
      = _get_cached_result ⟨a, r, false⟩ store
        (_generate_cache_key request.candidate_answer request.question_context) := rfl
  simp only [evaluate, hr]
  cases h : _get_cached_result ⟨a, r, false⟩ store
      (_generate_cache_key request.candidate_answer request.question_context) with
  | some v => rfl
  | none =>
      cases hg : o.graphExn with
      | some e => rfl
      | none =>
          cases hm : mkEvaluationResponse (run_graph o (initial_state request)).final_score
              (run_graph o (initial_state request)).final_summary
              (run_graph o (initial_state request)).final_improvement with
          | some resp => simp only [hm]
          | none => simp only [hm]

/-- C7: cache failures never surface to the caller of `evaluate`: when the
store is unavailable (or caching disabled) or the read raises, the call
degrades to a direct pipeline execution; a stored entry that fails to
deserialize is treated as a miss (same direct pipeline execution, no
error); a write failure changes nothing about the returned response; and in
every case the caller receives a validated `EvaluationResponse`. -/
theorem cache_failures_invisible (cb : CacheBehavior) (o : PipelineOracle) (store : Store)
    (request : EvaluateAnswerRequest) :
    ((cb.available = false ∨ cb.readExn = true) →
      (evaluate cb o store request).response = pipeline_execute o request) ∧
    (lookupStore store (_generate_cache_key request.candidate_answer request.question_context)
        = some CachedValue.malformed →
      (evaluate cb o store request).response = pipeline_execute o request) ∧
    ((evaluate ⟨cb.available, cb.readExn, true⟩ o store request).response
      = (evaluate ⟨cb.available, cb.readExn, false⟩ o store request).response) ∧
    ValidResponse (evaluate cb o store request).response :=
  ⟨fun h => evaluate_miss_response (get_cached_result_unavailable h),
   fun h => evaluate_miss_response (get_cached_result_malformed h),
   evaluate_writeExn_response cb.available cb.readExn o store request,
   evaluate_response_valid cb o store request⟩

set_option maxRecDepth 400000 in
/-- Witness for C7 at concrete inputs: unavailable store, a malformed
cached entry, and a failing write all leave the response equal to the
direct pipeline execution (and valid). -/
theorem cache_failures_invisible_witness :
    ((evaluate noCacheCB oAllFail [] req0).response = pipeline_execute oAllFail req0) ∧
    ((evaluate healthyCB oAllFail storeMalformed req0).response
      = pipeline_execute oAllFail req0) ∧
    ((evaluate ⟨true, false, true⟩ oAllFail [] req0).response
      = (evaluate ⟨true, false, false⟩ oAllFail [] req0).response) ∧
    ValidResponse (evaluate noCacheCB oAllFail [] req0).response :=
  ⟨(cache_failures_invisible noCacheCB oAllFail [] req0).1 (Or.inl rfl),
   (cache_failures_invisible healthyCB oAllFail storeMalformed req0).2.1 (by decide),
   (cache_failures_invisible healthyCB oAllFail [] req0).2.2.1,
   (cache_failures_invisible noCacheCB oAllFail [] req0).2.2.2⟩

/-! ## C3 -/

/-- C3 counterexample: when the first call's pipeline product fails
response validation (here: a parsed 5-character summary), `evaluate`
returns the fallback response and caches nothing, so a second call with
byte-identical input and a healthy store invokes the pipeline again and -
with the judging capability now failing outright - returns a different
result. -/
theorem cache_idempotence_counterexample :
    (evaluate healthyCB oAllFail
        (evaluate healthyCB oShortSummary [] req0).store req0).pipelineInvoked = true ∧
    (evaluate healthyCB oAllFail
        (evaluate healthyCB oShortSummary [] req0).store req0).response
      ≠ (evaluate healthyCB oShortSummary [] req0).response := by
  refine ⟨by decide, by decide⟩

/-- Reading back through a healthy cache immediately after a healthy write
returns exactly the written response. -/
theorem cache_write_read_healthy (store : Store) (key : Text) {r : EvaluationResponse}
    (hv : ValidResponse r) :
    _get_cached_result healthyCB (_cache_result healthyCB store key r) key = some r := by
  simp only [_cache_result, _get_cached_result, healthyCB, lookupStore, Bool.not_true,
    Bool.false_eq_true, if_false, List.find?]
  simp only [beq_self_eq_true, Option.map_some]
  exact mkEvaluationResponse_roundtrip hv

/-- C3 amended: two successive calls to `evaluate` with byte-identical
`(answer, question)` input and a healthy cache store return identical
`EvaluationResult` values, with the second call not invoking the pipeline
(zero judging-capability calls) - provided the first call did not fall back
to the error response; a first call that returns the fallback (its pipeline
product failed response validation) caches nothing, and the second call
runs the pipeline again (see the counterexample). -/
theorem cache_second_call_hits (o1 o2 : PipelineOracle) (store : Store)
    (request : EvaluateAnswerRequest)
    (h : (evaluate healthyCB o1 store request).response ≠ errorFallbackResponse) :
    (evaluate healthyCB o2 (evaluate healthyCB o1 store request).store request).response
      = (evaluate healthyCB o1 store request).response ∧
    (evaluate healthyCB o2
        (evaluate healthyCB o1 store request).store request).pipelineInvoked = false := by
  cases h1 : _get_cached_result healthyCB store
      (_generate_cache_key request.candidate_answer request.question_context) with
  | some r =>
      have e1 : evaluate healthyCB o1 store request = ⟨r, store, false⟩ := by
        simp only [evaluate, h1]
      rw [e1]
      have e2 : evaluate healthyCB o2 store request = ⟨r, store, false⟩ := by
        simp only [evaluate, h1]
      exact ⟨congrArg EvaluateOutcome.response e2, congrArg EvaluateOutcome.pipelineInvoked e2⟩
  | none =>
      cases hg : o1.graphExn with
      | some e =>
          exact absurd (by simp only [evaluate, h1, hg]) h
      | none =>
          cases hm : mkEvaluationResponse
              (run_graph o1 (initial_state request)).final_score
              (run_graph o1 (initial_state request)).final_summary
              (run_graph o1 (initial_state request)).final_improvement with
          | none =>
              exact absurd (by simp only [evaluate, h1, hg, hm]) h
          | some resp =>
              have e1 : evaluate healthyCB o1 store request
                  = ⟨resp, _cache_result healthyCB store
                      (_generate_cache_key request.candidate_answer
                        request.question_context) resp, true⟩ := by
                simp only [evaluate, h1, hg, hm]
              have h2 := cache_write_read_healthy store
                (_generate_cache_key request.candidate_answer request.question_context)
                (mkEvaluationResponse_valid hm)
              have e2 : evaluate healthyCB o2
                  (_cache_result healthyCB store
                    (_generate_cache_key request.candidate_answer
                      request.question_context) resp) request
                  = ⟨resp, _cache_result healthyCB store
                      (_generate_cache_key request.candidate_answer
                        request.question_context) resp, false⟩ := by
                simp only [evaluate, h2]
              rw [e1]
              dsimp only
              rw [e2]
              exact ⟨rfl, rfl⟩

set_option maxRecDepth 400000 in
/-- Witness for C3 at concrete inputs: a first call whose pipeline product
is valid (all judging calls fail, so every stage falls back, which yields a
valid response) is cached, and the second call returns it without invoking
the pipeline. -/
theorem cache_second_call_hits_witness :
    ((evaluate healthyCB oAllFail [] req0).response ≠ errorFallbackResponse) ∧
    (evaluate healthyCB oShortSummary
        (evaluate healthyCB oAllFail [] req0).store req0).response
      = (evaluate healthyCB oAllFail [] req0).response ∧
    (evaluate healthyCB oShortSummary
        (evaluate healthyCB oAllFail [] req0).store req0).pipelineInvoked = false :=
  ⟨by decide,
   (cache_second_call_hits oAllFail oShortSummary [] req0 (by decide)).1,
   (cache_second_call_hits oAllFail oShortSummary [] req0 (by decide)).2⟩

/-! ## C9 -/

theorem evaluator_node_agent (o : NodeOracle EvaluatorOutput) (s : AgentState) :
    (evaluator_node o s).current_agent = some (("evaluator").data) := by
  cases h : o.nodeExn <;> simp [evaluator_node, h]

theorem evaluator_node_score_isSome (o : NodeOracle EvaluatorOutput) (s : AgentState) :
    (evaluator_node o s).evaluator_score.isSome = true := by
  cases h : o.nodeExn <;> simp [evaluator_node, h]

theorem evaluator_node_justification_isSome (o : NodeOracle EvaluatorOutput)
    (s : AgentState) :
    (evaluator_node o s).evaluator_justification.isSome = true := by
  cases h : o.nodeExn <;> simp [evaluator_node, h]

theorem analyzer_node_agent (o : NodeOracle AnalyzerOutput) (s : AgentState) :
    (analyzer_node o s).current_agent = some (("analyzer").data) := by
  cases h : o.nodeExn <;> simp [analyzer_node, h]

theorem analyzer_node_strengths_isSome (o : NodeOracle AnalyzerOutput) (s : AgentState) :
    (analyzer_node o s).analyzer_strengths.isSome = true := by
  cases h : o.nodeExn <;> simp [analyzer_node, h]

theorem analyzer_node_weaknesses_isSome (o : NodeOracle AnalyzerOutput) (s : AgentState) :
    (analyzer_node o s).analyzer_weaknesses.isSome = true := by
  cases h : o.nodeExn <;> simp [analyzer_node, h]

theorem analyzer_node_summary_isSome (o : NodeOracle AnalyzerOutput) (s : AgentState) :
    (analyzer_node o s).final_summary.isSome = true := by
  cases h : o.nodeExn <;> simp [analyzer_node, h]

theorem analyzer_node_evaluator_score (o : NodeOracle AnalyzerOutput) (s : AgentState) :
    (analyzer_node o s).evaluator_score = s.evaluator_score := by
  cases h : o.nodeExn <;> simp [analyzer_node, h]

theorem analyzer_node_evaluator_justification (o : NodeOracle AnalyzerOutput)
    (s : AgentState) :
    (analyzer_node o s).evaluator_justification = s.evaluator_justification := by
  cases h : o.nodeExn <;> simp [analyzer_node, h]

theorem improvement_node_agent (o : NodeOracle ImprovementOutput) (s : AgentState) :
    (improvement_node o s).current_agent = some (("improvement").data) := by
  cases h : o.nodeExn <;> simp [improvement_node, h]

theorem improvement_node_suggestion_isSome (o : NodeOracle ImprovementOutput)
    (s : AgentState) :
    (improvement_node o s).improvement_suggestion.isSome = true := by
  cases h : o.nodeExn <;> simp [improvement_node, h]

theorem improvement_node_final_improvement_isSome (o : NodeOracle ImprovementOutput)
    (s : AgentState) :
    (improvement_node o s).final_improvement.isSome = true := by
  cases h : o.nodeExn <;> simp [improvement_node, h]

theorem improvement_node_evaluator_score (o : NodeOracle ImprovementOutput)
    (s : AgentState) :
    (improvement_node o s).evaluator_score = s.evaluator_score := by
  cases h : o.nodeExn <;> simp [improvement_node, h]

theorem improvement_node_evaluator_justification (o : NodeOracle ImprovementOutput)
    (s : AgentState) :
    (improvement_node o s).evaluator_justification = s.evaluator_justification := by
  cases h : o.nodeExn <;> simp [improvement_node, h]

theorem improvement_node_strengths (o : NodeOracle ImprovementOutput) (s : AgentState) :
    (improvement_node o s).analyzer_strengths = s.analyzer_strengths := by
  cases h : o.nodeExn <;> simp [improvement_node, h]

theorem improvement_node_weaknesses (o : NodeOracle ImprovementOutput) (s : AgentState) :
    (improvement_node o s).analyzer_weaknesses = s.analyzer_weaknesses := by
  cases h : o.nodeExn <;> simp [improvement_node, h]

theorem improvement_node_final_summary (o : NodeOracle ImprovementOutput)
    (s : AgentState) :
    (improvement_node o s).final_summary = s.final_summary := by
  cases h : o.nodeExn <;> simp [improvement_node, h]

theorem synthesizer_node_agent (s : AgentState) :
    (synthesizer_node s).current_agent = some (("synthesizer").data) := by
  cases h1 : s.final_summary <;> cases h2 : s.final_improvement <;>
    simp [synthesizer_node, h1, h2]

theorem synthesizer_node_final_summary_isSome (s : AgentState) :
    (synthesizer_node s).final_summary.isSome = true := by
  cases h1 : s.final_summary <;> cases h2 : s.final_improvement <;>
    simp [synthesizer_node, h1, h2]

theorem synthesizer_node_final_improvement_isSome (s : AgentState) :
    (synthesizer_node s).final_improvement.isSome = true := by
  cases h1 : s.final_summary <;> cases h2 : s.final_improvement <;>
    simp [synthesizer_node, h1, h2]

theorem synthesizer_node_final_score_isSome (s : AgentState)
    (h : s.evaluator_score.isSome = true) :
    (synthesizer_node s).final_score.isSome = true := by
  cases h1 : s.final_summary <;> cases h2 : s.final_improvement <;>
    simp [synthesizer_node, h1, h2, h]

theorem synthesizer_node_evaluator_score (s : AgentState) :
    (synthesizer_node s).evaluator_score = s.evaluator_score := by
  cases h1 : s.final_summary <;> cases h2 : s.final_improvement <;>
    simp [synthesizer_node, h1, h2]

theorem synthesizer_node_evaluator_justification (s : AgentState) :
    (synthesizer_node s).evaluator_justification = s.evaluator_justification := by
  cases h1 : s.final_summary <;> cases h2 : s.final_improvement <;>
    simp [synthesizer_node, h1, h2]

theorem synthesizer_node_strengths (s : AgentState) :
    (synthesizer_node s).analyzer_strengths = s.analyzer_strengths := by
  cases h1 : s.final_summary <;> cases h2 : s.final_improvement <;>
    simp [synthesizer_node, h1, h2]

theorem synthesizer_node_weaknesses (s : AgentState) :
    (synthesizer_node s).analyzer_weaknesses = s.analyzer_weaknesses := by
  cases h1 : s.final_summary <;> cases h2 : s.final_improvement <;>
    simp [synthesizer_node, h1, h2]

theorem synthesizer_node_suggestion (s : AgentState) :
    (synthesizer_node s).improvement_suggestion = s.improvement_suggestion := by
  cases h1 : s.final_summary <;> cases h2 : s.final_improvement <;>
    simp [synthesizer_node, h1, h2]

/-- C9: over every pipeline execution the `current_agent` marker is
monotonic through the fixed order [evaluator, analyzer, improvement,
synthesizer], starting from `None` and advancing by exactly one completed
stage per step (never backward, never skipping); and once a stage completes
(success or fallback) its output fields are non-null for the rest of the
run. -/
theorem pipeline_stage_monotone (o : PipelineOracle) (request : EvaluateAnswerRequest) :
    (pipeline_trace o request).map (fun s => stage_index s.current_agent)
      = [0, 1, 2, 3, 4] ∧
    (∀ s ∈ (pipeline_trace o request).drop 1,
      s.evaluator_score.isSome = true ∧ s.evaluator_justification.isSome = true) ∧
    (∀ s ∈ (pipeline_trace o request).drop 2,
      s.analyzer_strengths.isSome = true ∧ s.analyzer_weaknesses.isSome = true ∧
      s.final_summary.isSome = true) ∧
    (∀ s ∈ (pipeline_trace o request).drop 3,
      s.improvement_suggestion.isSome = true ∧ s.final_improvement.isSome = true) ∧
    (∀ s ∈ (pipeline_trace o request).drop 4,
      s.final_score.isSome = true ∧ s.final_summary.isSome = true ∧
      s.final_improvement.isSome = true) := by
  refine ⟨?_, ?_, ?_, ?_, ?_⟩
  · simp only [pipeline_trace, List.map, List.cons.injEq, and_true]
    refine ⟨rfl, ?_, ?_, ?_, ?_⟩
    · rw [evaluator_node_agent]
      decide
    · rw [analyzer_node_agent]
      decide
    · rw [improvement_node_agent]
      decide
    · rw [synthesizer_node_agent]
      decide
  · intro s hs
    simp only [pipeline_trace, List.drop, List.mem_cons, List.not_mem_nil, or_false] at hs
    rcases hs with rfl | rfl | rfl | rfl
    · exact ⟨evaluator_node_score_isSome _ _, evaluator_node_justification_isSome _ _⟩
    · rw [analyzer_node_evaluator_score, analyzer_node_evaluator_justification]
      exact ⟨evaluator_node_score_isSome _ _, evaluator_node_justification_isSome _ _⟩
    · rw [improvement_node_evaluator_score, improvement_node_evaluator_justification,
        analyzer_node_evaluator_score, analyzer_node_evaluator_justification]
      exact ⟨evaluator_node_score_isSome _ _, evaluator_node_justification_isSome _ _⟩
    · rw [synthesizer_node_evaluator_score, synthesizer_node_evaluator_justification,
        improvement_node_evaluator_score, improvement_node_evaluator_justification,
        analyzer_node_evaluator_score, analyzer_node_evaluator_justification]
      exact ⟨evaluator_node_score_isSome _ _, evaluator_node_justification_isSome _ _⟩
  · intro s hs
    simp only [pipeline_trace, List.drop, List.mem_cons, List.not_mem_nil, or_false] at hs
    rcases hs with rfl | rfl | rfl
    · exact ⟨analyzer_node_strengths_isSome _ _, analyzer_node_weaknesses_isSome _ _,
        analyzer_node_summary_isSome _ _⟩
    · rw [improvement_node_strengths, improvement_node_weaknesses,
        improvement_node_final_summary]
      exact ⟨analyzer_node_strengths_isSome _ _, analyzer_node_weaknesses_isSome _ _,
        analyzer_node_summary_isSome _ _⟩
    · rw [synthesizer_node_strengths, synthesizer_node_weaknesses,
        improvement_node_strengths, improvement_node_weaknesses]
      exact ⟨analyzer_node_strengths_isSome _ _, analyzer_node_weaknesses_isSome _ _,
        synthesizer_node_final_summary_isSome _⟩
  · intro s hs
    simp only [pipeline_trace, List.drop, List.mem_cons, List.not_mem_nil, or_false] at hs
    rcases hs with rfl | rfl
    · exact ⟨improvement_node_suggestion_isSome _ _,
        improvement_node_final_improvement_isSome _ _⟩
    · rw [synthesizer_node_suggestion]
      exact ⟨improvement_node_suggestion_isSome _ _,
        synthesizer_node_final_improvement_isSome _⟩
  · intro s hs
    simp only [pipeline_trace, List.drop, List.mem_cons, List.not_mem_nil, or_false] at hs
    rcases hs with rfl
    refine ⟨?_, synthesizer_node_final_summary_isSome _,
      synthesizer_node_final_improvement_isSome _⟩
    apply synthesizer_node_final_score_isSome
    rw [improvement_node_evaluator_score, analyzer_node_evaluator_score]
    exact evaluator_node_score_isSome _ _

/-! ## C2 and C6 -/

theorem mkRankedCandidate_rank0 (candidate_id : Text) (score : Int)
    (summary improvement : Text) :
    mkRankedCandidate candidate_id score summary improvement 0 = none := by
  unfold mkRankedCandidate
  rw [if_neg]
  rintro ⟨-, -, hrank⟩
  exact absurd hrank (by decide)

/-- Every call to `_evaluate_candidate` raises: both the success path and
the `except` fallback construct their `RankedCandidate` draft with
`rank=0`, which the response model's `rank >= 1` constraint rejects; the
`ValidationError` raised inside the `except` branch propagates. -/
theorem evaluate_candidate_raises (candidate_id : Text)
    (outcome : Except Text EvaluationResponse) :
    _evaluate_candidate candidate_id outcome = none := by
  cases outcome with
  | ok r => simp [_evaluate_candidate, mkRankedCandidate_rank0]
  | error e => simp [_evaluate_candidate, mkRankedCandidate_rank0]

/-- C2 (code bug): `rank_candidates` never returns a ranking.  Every
candidate draft is built with the placeholder `rank=0` ("will be assigned
later"), but `RankedCandidate` validates `rank >= 1` at construction, so
every `_evaluate_candidate` task raises a `ValidationError`, which
`asyncio.gather` propagates; the sort and rank-assignment steps are never
reached and the caller gets an exception (a 500 envelope) instead of the
stably sorted, densely ranked response the specification describes. -/
theorem rank_candidates_always_raises
    (candidates : List (Text × Except Text EvaluationResponse))
    (h : candidates ≠ []) :
    rank_candidates candidates = none := by
  cases candidates with
  | nil => exact absurd rfl h
  | cons hd tl =>
      simp [rank_candidates, gatherResults, evaluate_candidate_raises]

/-- Witness for C2 at the specification's scores-[2,5,5,1] batch: the call
produces no ranking. -/
theorem rank_candidates_always_raises_witness :
    rankBatch ≠ [] ∧ rank_candidates rankBatch = none :=
  ⟨by simp [rankBatch], rank_candidates_always_raises rankBatch (by simp [rankBatch])⟩

/-- C6 (code bug): with one candidate's evaluation forced to throw, the
batch does not complete with `total_candidates == N` and a neutral
substituted draft; instead the `except` branch's own draft construction
(`rank=0` against the `rank >= 1` model constraint) raises, the exception
escapes `_evaluate_candidate`, `asyncio.gather` propagates it, and the
whole batch aborts with no response. -/
theorem batch_failure_not_substituted :
    rank_candidates failBatch = none ∧
    _evaluate_candidate (("candidate_002").data)
      (.error (("evaluation blew up").data)) = none := by
  refine ⟨by decide, by decide⟩

/-- Witness for C8 at concrete inputs: key format, and the changed content
string under a trailing space. -/
theorem cache_key_spec_witness :
    _generate_cache_key (("aaaaaaaaaa").data) (some (("q1").data))
      = ("eval:").data
        ++ md5Hexdigest (cache_key_content (("aaaaaaaaaa").data) (some (("q1").data))) ∧
    cache_key_content (("aaaaaaaaaa").data) (some ((("q1").data) ++ (" ").data))
      ≠ cache_key_content (("aaaaaaaaaa").data) (some (("q1").data)) :=
  ⟨(cache_key_spec (("aaaaaaaaaa").data) (("q1").data) (some (("q1").data))).1,
   (cache_key_spec (("aaaaaaaaaa").data) (("q1").data) (some (("q1").data))).2.2.1⟩

set_option maxRecDepth 40000 in
/-- Witness for C9 at a concrete run (every judging call failing): the
stage markers advance 0,1,2,3,4 and the state after the evaluator node - a
member of the rest of the trace - carries a non-null score and
justification. -/
theorem pipeline_stage_monotone_witness :
    (pipeline_trace oAllFail req0).map (fun s => stage_index s.current_agent)
      = [0, 1, 2, 3, 4] ∧
    ((evaluator_node oAllFail.evaluator (initial_state req0)).evaluator_score.isSome
        = true ∧
      (evaluator_node oAllFail.evaluator
        (initial_state req0)).evaluator_justification.isSome = true) :=
  ⟨(pipeline_stage_monotone oAllFail req0).1,
   (pipeline_stage_monotone oAllFail req0).2.1
     (evaluator_node oAllFail.evaluator (initial_state req0)) (by decide)⟩
